import Mathlib

/-!
Verification of the WhatsApp-gateway adapter layer of `wwebjs-api`
(`src/wppconnect-migration/`): the session-establishment logic
(`register_session` / `status`), the inbound-message normalizer
(`parse_inbound_message`), the generic REST wrapper (`send_rest_request`)
and the chat-id formatter (`_format_chat_id`), for the two backend
flavors (WPPConnect: `wppconnect_api.py`, WWebJS:
`wwebjs_wppconnect_api.py`).

The embedding models Python JSON-ish values (`JVal`), dicts as
association lists with unique keys (`JObj`), Python truthiness, the
`dict.get` defaulting discipline, and exceptions as `Option` (with
`none` standing for an exception escaping the modelled code).  The HTTP
collaborators are an explicit environment: each theorem quantifies over
the dictionaries the collaborator methods return.
-/

/-- A Python/JSON value as it flows through the adapter.  Numbers are
modelled as integers (no claim touches float arithmetic). -/
inductive JVal where
  | null
  | bool (b : Bool)
  | num (n : Int)
  | str (s : String)
  | arr (xs : List JVal)
  | obj (fields : List (String × JVal))

/-- A Python dict with string keys, as an association list.  Keys are
unique (Python dicts cannot hold a key twice); lookups take the first
match, which coincides with dict lookup under that invariant. -/
abbrev JObj := List (String × JVal)

/-- First-match association-list lookup, the model of `d[k]` presence /
`k in d`. -/
def lookupKey (o : JObj) (k : String) : Option JVal :=
  match o with
  | [] => none
  | (k', v) :: rest => if k' = k then some v else lookupKey rest k

/-- Model of Python `d.get(k, default)`. -/
def pyGetD (o : JObj) (k : String) (d : JVal) : JVal :=
  (lookupKey o k).getD d

/-- Model of Python `k in d` for a dict. -/
def hasKey (o : JObj) (k : String) : Bool :=
  (lookupKey o k).isSome

/-- Model of Python `d[k] = v`: replace the value in place if the key
exists, append otherwise. -/
def setKey (o : JObj) (k : String) (v : JVal) : JObj :=
  match o with
  | [] => [(k, v)]
  | (k', v') :: rest => if k' = k then (k, v) :: rest else (k', v') :: setKey rest k v

/-- Python truthiness of a value (`if v:`). -/
def truthy : JVal → Bool
  | .null => false
  | .bool b => b
  | .num n => n != 0
  | .str s => ¬ s.isEmpty
  | .arr xs => ¬ xs.isEmpty
  | .obj fs => ¬ fs.isEmpty

/-- Python `a or b`: the first operand if truthy, else the second. -/
def pyOr (a b : JVal) : JVal :=
  if truthy a then a else b

/-- Python `v == "lit"` where the right-hand side is a string literal:
true exactly when `v` is an equal string (no exception on other types). -/
def JVal.eqStr : JVal → String → Bool
  | .str s, t => s = t
  | _, _ => false

/-- Python `v in [lit, ...]` over a list of string literals. -/
def jInStrs (v : JVal) (ls : List String) : Bool :=
  ls.any (fun l => v.eqStr l)

/-- Python `s.upper()` (character-wise uppercasing; the adapter only
compares ASCII status words). -/
def pyToUpper (s : String) : String :=
  ⟨s.data.map Char.toUpper⟩

/-- Model of Python `s.upper()` applied to a value: succeeds only on a
string (`AttributeError`, i.e. `none`, otherwise). -/
def pyUpperStr : JVal → Option String
  | .str s => some (pyToUpper s)
  | _ => none

/-- Does `needle` occur as a contiguous sublist of `hay` (checking each
suffix position)? -/
def charsContain (hay needle : List Char) : Bool :=
  match hay with
  | [] => needle.isEmpty
  | c :: cs => needle.isPrefixOf (c :: cs) || charsContain cs needle

/-- Substring test (Python `needle in hay` on strings). -/
def strContains (hay needle : String) : Bool :=
  charsContain hay.data needle.data

/-- `wwebjs_wppconnect_api.py:52-57`, `WPPConnectAPI._format_chat_id`:
append the WWebJS chat-id suffix unless the caller-supplied id already
contains an `@`.  Python's `"@" in phone` is char containment here. -/
def format_chat_id (phone : String) (is_group : Bool) : String :=
  if '@' ∈ phone.data then phone
  else phone ++ (if is_group then "@g.us" else "@c.us")

/-- C8: the suffix (`@g.us` for groups, `@c.us` otherwise) is appended
exactly when the input has no `@`; formatting is idempotent; and a
phone supplied with or without its suffix yields the same chat id. -/
theorem c8_format_chat_id_idempotent_roundtrip (p : String) (g : Bool)
    (hp : '@' ∉ p.data) :
    (format_chat_id p g = p ++ (if g then "@g.us" else "@c.us")) ∧
    (∀ q : String, '@' ∈ q.data → format_chat_id q g = q) ∧
    (∀ q : String, format_chat_id (format_chat_id q g) g = format_chat_id q g) ∧
    (format_chat_id (p ++ (if g then "@g.us" else "@c.us")) g = format_chat_id p g) := by
  have hat : ∀ (q : String), '@' ∈ (q ++ (if g then "@g.us" else "@c.us")).data := by
    intro q
    cases g <;> simp [String.data_append]
  refine ⟨by simp [format_chat_id, hp], ?_, ?_, ?_⟩
  · intro q hq
    simp [format_chat_id, hq]
  · intro q
    by_cases hq : '@' ∈ q.data
    · simp [format_chat_id, hq]
    · have h1 : format_chat_id q g = q ++ (if g then "@g.us" else "@c.us") := by
        simp [format_chat_id, hq]
      rw [h1]
      unfold format_chat_id
      rw [if_pos (hat q)]
  · have h1 : format_chat_id p g = p ++ (if g then "@g.us" else "@c.us") := by
      simp [format_chat_id, hp]
    rw [h1]
    unfold format_chat_id
    rw [if_pos (hat p)]

/-- Witness for C8 at `p = "5511999"`, `g = false`. -/
theorem c8_format_chat_id_witness :
    ('@' ∉ "5511999".data) ∧
    (format_chat_id "5511999" false = "5511999" ++ "@c.us") ∧
    (format_chat_id ("5511999" ++ "@c.us") false = format_chat_id "5511999" false) := by
  have h := c8_format_chat_id_idempotent_roundtrip "5511999" false (by decide)
  exact ⟨by decide, h.1, h.2.2.2⟩

/-! ## Inbound-message normalizer

`WPPConnectAPI.parse_inbound_message` is textually identical in the two
backend files (`wppconnect_api.py:98-170` and
`wwebjs_wppconnect_api.py:118-185`); it is embedded once and the
theorems about it cover both flavors.  The Python `try/except` that
wraps the whole body is modelled by `Option`: `none` marks a raised
exception, and the outer function turns it into the empty dict. -/

/-- Python `str.replace(old, new)` on char lists: every non-overlapping
occurrence of `pat`, scanning left to right.  The fuel argument is
instantiated with the subject's length, which one char of progress per
step never exhausts; it only serves structural termination.  (Defined
for the non-empty patterns the adapter uses.) -/
def replaceChars (fuel : Nat) (pat repl s : List Char) : List Char :=
  match fuel, s with
  | _, [] => []
  | 0, s => s
  | fuel + 1, c :: cs =>
    if pat.isPrefixOf (c :: cs) then
      repl ++ replaceChars fuel pat repl ((c :: cs).drop pat.length)
    else
      c :: replaceChars fuel pat repl cs

/-- Python `s.replace(pat, repl)` for non-empty `pat`. -/
def pyReplace (s pat repl : String) : String :=
  ⟨replaceChars s.data.length pat.data repl.data s.data⟩

/-- Python `str(x.replace("@c.us", ""))` on a `.get(..., "")` result:
succeeds only on strings (`.replace` raises `AttributeError` on any
other type); `replace` removes every occurrence. -/
def stripCUs : JVal → Option String
  | .str s => some (pyReplace s "@c.us" "")
  | _ => none

/-- The `payload` dict literal of `parse_inbound_message`
(`wppconnect_api.py:109-122`) together with the in-place corrections
that follow it (nested `fromMe`/`id` unwrapping at lines 124-131, the
`quotedMsg` attachment at 133-135 and the group detection at 137-143),
as a function of the request dict and the already-normalized
author/sender/receiver strings. -/
def parse_base (r : JObj) (author sender receiver : String) : JObj :=
  let event := pyGetD r "event" .null
  let fromMe0 := pyGetD r "fromMe" (.bool false)
  let messageId0 := pyGetD r "id" (.str "")
  let fromMe1 := match fromMe0 with
    | .obj d => pyGetD d "fromMe" (.bool false)
    | _ => fromMe0
  let fromMe2 := match messageId0 with
    | .obj d => pyGetD d "fromMe" (.bool false)
    | _ => fromMe1
  let messageId := match messageId0 with
    | .obj d => pyGetD d "id" (.str "")
    | _ => messageId0
  let isGroup :=
    if author ≠ "" ∧ sender ≠ "" ∧ author ≠ sender then JVal.bool true
    else pyGetD r "isGroupMsg" (.bool false)
  let base : JObj :=
    [("message_id", messageId),
     ("event_type", pyGetD r "dataType" event),
     ("message_type", pyGetD r "type" (.str "unknown")),
     ("author", .str author),
     ("sender", .str sender),
     ("receiver", .str receiver),
     ("caption", pyGetD r "caption" (.str "")),
     ("location", pyGetD r "location" (.obj [])),
     ("fromMe", fromMe2),
     ("isGroup", isGroup),
     ("isForwarded", pyGetD r "isForwarded" (.bool false)),
     ("sender_name", pyGetD r "notifyName" (.str ""))]
  if hasKey r "quotedMsg" then setKey base "quoted_message" (pyGetD r "quotedMsg" .null)
  else base

/-- The content-kind dispatch of `parse_inbound_message`
(`wppconnect_api.py:145-166`): the `elif` chain on `message_type`, with
the poll-response branch re-reading `msgId`/`chatId` (both of which can
raise, hence `Option`). -/
def parse_dispatch (r base : JObj) (eventType messageType : JVal) : Option JObj :=
  if messageType.eqStr "chat" then
    some (setKey base "body" (pyGetD r "content" (pyGetD r "body" (.str ""))))
  else if jInStrs messageType ["image", "video", "document"] then
    some (setKey (setKey (setKey base "media" (pyGetD r "body" (.str "")))
      "filename" (pyGetD r "filename" (.str ""))) "mime_type" (pyGetD r "mimetype" (.str "")))
  else if messageType.eqStr "location" then
    some (setKey base "location" (.obj [("latitude", pyGetD r "lat" (.str "")),
      ("longitude", pyGetD r "lng" (.str ""))]))
  else if jInStrs messageType ["audio", "ptt", "sticker"] then
    some (setKey base "media" (pyGetD r "body" (.str "")))
  else if jInStrs messageType ["contacts", "vcard"] then
    some (setKey base "contact" (pyGetD r "body" (.obj [])))
  else if eventType.eqStr "onpollresponse" then
    match pyGetD r "msgId" (.obj []) with
    | .obj d =>
      match stripCUs (pyGetD r "chatId" (.str "")) with
      | some sender2 =>
        some (setKey (setKey (setKey (setKey base
          "poll_id" (pyGetD d "_serialized" (.str "")))
          "selectedOptions" (pyGetD r "selectedOptions" (.str "")))
          "sender" (.str sender2)) "message_type" (.str "poll"))
      | none => none
    | _ => none
  else
    some base

/-- The body of the `try` block of `parse_inbound_message` applied to a
dict: the early return `{}` for unrecognized events, field
normalization, and content dispatch.  `none` models an exception caught
by the surrounding `except`. -/
def parse_inbound_core (r : JObj) : Option JObj :=
  let event := pyGetD r "event" .null
  if jInStrs event ["onmessage", "onpollresponse", "onack"] then
    match stripCUs (pyGetD r "author" (.str "")),
        stripCUs (pyGetD r "from" (.str "")),
        stripCUs (pyGetD r "to" (.str "")) with
    | some author, some sender, some receiver =>
      parse_dispatch r (parse_base r author sender receiver)
        (pyGetD r "dataType" event) (pyGetD r "type" (.str "unknown"))
    | _, _, _ => none
  else
    some []

/-- The `try` body including the very first field access, which raises
`AttributeError` when the argument is not a dict (the test suite passes
`None`). -/
def parse_inbound_try : JVal → Option JObj
  | .obj fs => parse_inbound_core fs
  | _ => none

/-- `WPPConnectAPI.parse_inbound_message`: the `except` clause degrades
every failure to the empty dict. -/
def parse_inbound_message (r : JVal) : JObj :=
  (parse_inbound_try r).getD []

theorem lookupKey_setKey_ne {k' k : String} (h : k' ≠ k) (o : JObj) (v : JVal) :
    lookupKey (setKey o k' v) k = lookupKey o k := by
  induction o with
  | nil => simp [setKey, lookupKey, h]
  | cons hd tl ih =>
    obtain ⟨k0, v0⟩ := hd
    by_cases h0 : k0 = k'
    · subst h0
      simp [setKey, lookupKey, h]
    · simp only [setKey, if_neg h0, lookupKey]
      rw [ih]

theorem lookupKey_setKey_self (o : JObj) (k : String) (v : JVal) :
    lookupKey (setKey o k v) k = some v := by
  induction o with
  | nil => simp [setKey, lookupKey]
  | cons hd tl ih =>
    obtain ⟨k0, v0⟩ := hd
    by_cases h0 : k0 = k
    · subst h0
      simp [setKey, lookupKey]
    · simp only [setKey, if_neg h0, lookupKey]
      exact ih

/-- Keys never written by the content dispatch read through to the base
payload. -/
theorem parse_dispatch_lookup (r base : JObj) (et mt : JVal) (p : JObj) (k : String)
    (hmods : ∀ k', k' ∈ ["body", "media", "filename", "mime_type", "location", "contact",
      "poll_id", "selectedOptions", "sender", "message_type"] → k' ≠ k)
    (hp : parse_dispatch r base et mt = some p) :
    lookupKey p k = lookupKey base k := by
  unfold parse_dispatch at hp
  split_ifs at hp
  case pos =>
    obtain rfl : _ = p := Option.some_injective _ hp
    rw [lookupKey_setKey_ne (hmods "body" (by simp))]
  case pos =>
    obtain rfl : _ = p := Option.some_injective _ hp
    rw [lookupKey_setKey_ne (hmods "mime_type" (by simp)),
      lookupKey_setKey_ne (hmods "filename" (by simp)),
      lookupKey_setKey_ne (hmods "media" (by simp))]
  case pos =>
    obtain rfl : _ = p := Option.some_injective _ hp
    rw [lookupKey_setKey_ne (hmods "location" (by simp))]
  case pos =>
    obtain rfl : _ = p := Option.some_injective _ hp
    rw [lookupKey_setKey_ne (hmods "media" (by simp))]
  case pos =>
    obtain rfl : _ = p := Option.some_injective _ hp
    rw [lookupKey_setKey_ne (hmods "contact" (by simp))]
  case pos =>
    split at hp
    · split at hp
      · obtain rfl : _ = p := Option.some_injective _ hp
        rw [lookupKey_setKey_ne (hmods "message_type" (by simp)),
          lookupKey_setKey_ne (hmods "sender" (by simp)),
          lookupKey_setKey_ne (hmods "selectedOptions" (by simp)),
          lookupKey_setKey_ne (hmods "poll_id" (by simp))]
      · exact absurd hp (by simp)
    · exact absurd hp (by simp)
  case neg =>
    obtain rfl : _ = p := Option.some_injective _ hp
    rfl

/-- Reading `isGroup` from the base payload: the group-detection value. -/
theorem lookupKey_parse_base_isGroup (r : JObj) (a s rcv : String) :
    lookupKey (parse_base r a s rcv) "isGroup" =
      some (if a ≠ "" ∧ s ≠ "" ∧ a ≠ s then JVal.bool true
            else pyGetD r "isGroupMsg" (.bool false)) := by
  unfold parse_base
  by_cases hq : hasKey r "quotedMsg"
  · rw [if_pos hq, lookupKey_setKey_ne (by decide)]
    simp [lookupKey]
  · rw [if_neg hq]
    simp [lookupKey]

/-- Reading `fromMe` from the base payload when the `id` field is a
nested dict. -/
theorem lookupKey_parse_base_fromMe (r d : JObj) (a s rcv : String)
    (hid : pyGetD r "id" (.str "") = .obj d) :
    lookupKey (parse_base r a s rcv) "fromMe" =
      some (pyGetD d "fromMe" (.bool false)) := by
  unfold parse_base
  rw [hid]
  by_cases hq : hasKey r "quotedMsg"
  · rw [if_pos hq, lookupKey_setKey_ne (by decide)]
    simp [lookupKey]
  · rw [if_neg hq]
    simp [lookupKey]

/-- Reading `message_id` from the base payload when the `id` field is a
nested dict. -/
theorem lookupKey_parse_base_message_id (r d : JObj) (a s rcv : String)
    (hid : pyGetD r "id" (.str "") = .obj d) :
    lookupKey (parse_base r a s rcv) "message_id" =
      some (pyGetD d "id" (.str "")) := by
  unfold parse_base
  rw [hid]
  by_cases hq : hasKey r "quotedMsg"
  · rw [if_pos hq, lookupKey_setKey_ne (by decide)]
    simp [lookupKey]
  · rw [if_neg hq]
    simp [lookupKey]

/-- C5: for every payload with a recognized event, if the normalized
(`@c.us`-stripped) author and sender are both non-empty and differ,
`parse_inbound_message` reports `isGroup = True`, regardless of the
payload's own `isGroupMsg` flag.  The function is the common text of
both backend flavors. -/
theorem c5_group_inference (fs p : JObj) (a s : String)
    (hrec : jInStrs (pyGetD fs "event" .null) ["onmessage", "onpollresponse", "onack"] = true)
    (ha : stripCUs (pyGetD fs "author" (.str "")) = some a)
    (hs : stripCUs (pyGetD fs "from" (.str "")) = some s)
    (hna : a ≠ "") (hns : s ≠ "") (hdiff : a ≠ s)
    (hp : parse_inbound_core fs = some p) :
    lookupKey p "isGroup" = some (.bool true) := by
  unfold parse_inbound_core at hp
  rw [if_pos hrec, ha, hs] at hp
  cases hto : stripCUs (pyGetD fs "to" (.str "")) with
  | none =>
    rw [hto] at hp
    exact absurd hp (by simp)
  | some rcv =>
    rw [hto] at hp
    rw [parse_dispatch_lookup fs _ _ _ p "isGroup" (by decide) hp,
      lookupKey_parse_base_isGroup, if_pos ⟨hna, hns, hdiff⟩]

/-- Witness for C5: a group payload whose own `isGroupMsg` flag is
`False` but whose author and sender differ. -/
theorem c5_group_inference_witness :
    lookupKey (parse_inbound_message (.obj [("event", .str "onmessage"),
      ("type", .str "chat"), ("from", .str "g1@c.us"), ("author", .str "u2@c.us"),
      ("isGroupMsg", .bool false), ("body", .str "hi")])) "isGroup" = some (.bool true) := by
  have h := c5_group_inference
    [("event", .str "onmessage"), ("type", .str "chat"), ("from", .str "g1@c.us"),
     ("author", .str "u2@c.us"), ("isGroupMsg", .bool false), ("body", .str "hi")]
    (parse_inbound_message (.obj [("event", .str "onmessage"),
      ("type", .str "chat"), ("from", .str "g1@c.us"), ("author", .str "u2@c.us"),
      ("isGroupMsg", .bool false), ("body", .str "hi")]))
    "u2" "g1" (by decide) (by decide) (by decide) (by decide) (by decide) (by decide) (by rfl)
  exact h

/-- C6: `parse_inbound_message` is total at its boundary: an
unrecognized event yields the empty dict, any modelled exception
(including a non-dict argument) yields the empty dict, and otherwise
the normalized payload is returned as-is — nothing propagates. -/
theorem c6_parse_never_raises (r : JVal) :
    (∀ fs, r = .obj fs →
      jInStrs (pyGetD fs "event" .null) ["onmessage", "onpollresponse", "onack"] = false →
      parse_inbound_message r = []) ∧
    (parse_inbound_try r = none → parse_inbound_message r = []) ∧
    (∀ p, parse_inbound_try r = some p → parse_inbound_message r = p) := by
  refine ⟨?_, ?_, ?_⟩
  · rintro fs rfl hev
    simp [parse_inbound_message, parse_inbound_try, parse_inbound_core, hev]
  · intro h
    simp [parse_inbound_message, h]
  · intro p h
    simp [parse_inbound_message, h]

/-- Witness for C6 at the spec's Scenario D (`event = "unknown_event"`)
and at a non-dict input. -/
theorem c6_parse_never_raises_witness :
    parse_inbound_message (.obj [("event", .str "unknown_event")]) = [] ∧
    parse_inbound_message .null = [] := by
  constructor
  · exact (c6_parse_never_raises (.obj [("event", .str "unknown_event")])).1 _ rfl (by decide)
  · exact (c6_parse_never_raises .null).2.1 (by rfl)

/-- C10: when the payload's `id` field is a nested dict, the normalized
`fromMe` is taken from that dict's `fromMe` key (default `False`),
overwriting any top-level `fromMe`, and `message_id` is taken from the
dict's `id` key. -/
theorem c10_nested_id_unwrap (fs d p : JObj)
    (hrec : jInStrs (pyGetD fs "event" .null) ["onmessage", "onpollresponse", "onack"] = true)
    (hid : pyGetD fs "id" (.str "") = .obj d)
    (hp : parse_inbound_core fs = some p) :
    lookupKey p "fromMe" = some (pyGetD d "fromMe" (.bool false)) ∧
    lookupKey p "message_id" = some (pyGetD d "id" (.str "")) := by
  unfold parse_inbound_core at hp
  rw [if_pos hrec] at hp
  cases hau : stripCUs (pyGetD fs "author" (.str "")) with
  | none =>
    rw [hau] at hp
    exact absurd hp (by simp)
  | some a =>
    cases hsn : stripCUs (pyGetD fs "from" (.str "")) with
    | none =>
      rw [hau, hsn] at hp
      exact absurd hp (by simp)
    | some s =>
      cases hto : stripCUs (pyGetD fs "to" (.str "")) with
      | none =>
        rw [hau, hsn, hto] at hp
        exact absurd hp (by simp)
      | some rcv =>
        rw [hau, hsn, hto] at hp
        constructor
        · rw [parse_dispatch_lookup fs _ _ _ p "fromMe" (by decide) hp,
            lookupKey_parse_base_fromMe fs d a s rcv hid]
        · rw [parse_dispatch_lookup fs _ _ _ p "message_id" (by decide) hp,
            lookupKey_parse_base_message_id fs d a s rcv hid]

/-- Witness for C10: a payload with a nested id struct
`{"id": {"id": "m7", "fromMe": true}}` and a contradicting top-level
`fromMe = false`. -/
theorem c10_nested_id_unwrap_witness :
    lookupKey (parse_inbound_message (.obj [("event", .str "onmessage"),
      ("type", .str "chat"), ("from", .str "111@c.us"),
      ("id", .obj [("id", .str "m7"), ("fromMe", .bool true)]),
      ("fromMe", .bool false)])) "fromMe" = some (.bool true) ∧
    lookupKey (parse_inbound_message (.obj [("event", .str "onmessage"),
      ("type", .str "chat"), ("from", .str "111@c.us"),
      ("id", .obj [("id", .str "m7"), ("fromMe", .bool true)]),
      ("fromMe", .bool false)])) "message_id" = some (.str "m7") := by
  have h := c10_nested_id_unwrap
    [("event", .str "onmessage"), ("type", .str "chat"), ("from", .str "111@c.us"),
     ("id", .obj [("id", .str "m7"), ("fromMe", .bool true)]), ("fromMe", .bool false)]
    [("id", .str "m7"), ("fromMe", .bool true)]
    (parse_inbound_message (.obj [("event", .str "onmessage"),
      ("type", .str "chat"), ("from", .str "111@c.us"),
      ("id", .obj [("id", .str "m7"), ("fromMe", .bool true)]),
      ("fromMe", .bool false)]))
    (by decide) (by rfl) (by rfl)
  exact h

/-! ## Session establishment

The HTTP collaborators of `register_session` are modelled as an
environment holding the dictionaries each collaborator method returns
for this run (`status()` twice — before and, on the re-authentication
path, after token creation — `create_session()`, `start_session()`,
`qrcode()`, `get_host_device()`).  `start_session`'s internal one-shot
retry (`wppconnect_api.py:411-419`) is absorbed into its environment
response: `register_session` only sees the dict the method returns.
The trace of collaborator calls is recorded so that call-order and
call-count claims can be stated. -/

mutual

/-- Python `repr` of a value (used by `str()` on non-strings); string
escaping is not modelled (the adapter only substring-tests the result
for `"Unauthorized"`). -/
def pyRepr : JVal → String
  | .null => "None"
  | .bool true => "True"
  | .bool false => "False"
  | .num n => toString n
  | .str s => "\x27" ++ s ++ "\x27"
  | .arr xs => "[" ++ pyReprItems xs ++ "]"
  | .obj fs => "\x7b" ++ pyReprFields fs ++ "\x7d"

/-- `repr` of list items, comma-separated. -/
def pyReprItems : List JVal → String
  | [] => ""
  | [x] => pyRepr x
  | x :: y :: xs => pyRepr x ++ ", " ++ pyReprItems (y :: xs)

/-- `repr` of dict entries, comma-separated. -/
def pyReprFields : List (String × JVal) → String
  | [] => ""
  | [(k, v)] => "\x27" ++ k ++ "\x27: " ++ pyRepr v
  | (k, v) :: e :: xs => "\x27" ++ k ++ "\x27: " ++ pyRepr v ++ ", " ++ pyReprFields (e :: xs)

end

/-- Python `str(v)`: identity on strings, `repr`-like rendering
otherwise. -/
def pyStr : JVal → String
  | .str s => s
  | v => pyRepr v

/-- The spec's canonical session-state vocabulary (§3). -/
inductive SessionState where
  | UNKNOWN
  | DISCONNECTED
  | AWAITING_QR
  | CONNECTED
  | ERROR
deriving DecidableEq

/-- Modelled from the spec (§4.1, §4.2, §8): the canonical
`SessionState` denoted by a raw status string of the adapters' status
vocabulary; per §4.1, a missing/blank raw status string normalizes to
`DISCONNECTED`, not `ERROR`.  This spec-side reading is used to compare
the code's status strings against the spec's canonical mapping. -/
def specCanonicalStatus (s : String) : SessionState :=
  if pyToUpper s = "CONNECTED" then .CONNECTED
  else if pyToUpper s = "QRCODE" then .AWAITING_QR
  else if pyToUpper s = "DISCONNECTED" ∨ pyToUpper s = "CLOSED" ∨ pyToUpper s = "UNPAIRED" ∨ s = ""
    then .DISCONNECTED
  else .UNKNOWN

/-- `wwebjs_wppconnect_api.py:373-407`, `WPPConnectAPI.status` (WWebJS
flavor): the message-string-to-status normalization applied to the raw
REST response before `register_session` consumes it. -/
def wwebjsStatus (result : JObj) : JObj :=
  let message := pyGetD result "message" (.str "")
  let state := pyGetD result "state" .null
  if message.eqStr "session_not_found" then
    setKey result "status" (.str "")
  else if jInStrs message ["browser tab closed", "session closed"] then
    setKey result "status" (.str "")
  else if message.eqStr "session_not_connected" then
    setKey result "status" (if truthy state then state else .str "DISCONNECTED")
  else if message.eqStr "session_connected" then
    setKey result "status" (.str "CONNECTED")
  else if hasKey result "state" && truthy state then
    setKey result "status" state
  else if hasKey result "error" && !(truthy (pyGetD result "ok" .null)) then
    setKey result "status" (.str "")
  else
    setKey result "status" (.str "")

/-- C1: every WWebJS status response whose `message` is
`session_not_found`, `session closed` or `browser tab closed` is
normalized by `status()` to the blank status string, whose canonical
reading per the spec is `DISCONNECTED` — not `ERROR`, not `CONNECTED`
— before `register_session` consumes it. -/
theorem c1_wwebjs_status_maps_to_disconnected (raw : JObj) (m : String)
    (hm : pyGetD raw "message" (.str "") = .str m)
    (hmem : m ∈ ["session_not_found", "session closed", "browser tab closed"]) :
    ∃ s, lookupKey (wwebjsStatus raw) "status" = some (.str s) ∧
      specCanonicalStatus s = .DISCONNECTED ∧
      specCanonicalStatus s ≠ .ERROR ∧
      specCanonicalStatus s ≠ .CONNECTED := by
  refine ⟨"", ?_, by decide, by decide, by decide⟩
  fin_cases hmem <;>
    (unfold wwebjsStatus; rw [hm]; simp [JVal.eqStr, jInStrs, lookupKey_setKey_self])

/-- Witness for C1 at the documented WWebJS response shape
`{"success": false, "state": null, "message": "session closed"}`. -/
theorem c1_wwebjs_status_maps_to_disconnected_witness :
    ∃ s, lookupKey (wwebjsStatus [("success", .bool false), ("state", .null),
        ("message", .str "session closed")]) "status" = some (.str s) ∧
      specCanonicalStatus s = .DISCONNECTED ∧
      specCanonicalStatus s ≠ .ERROR ∧
      specCanonicalStatus s ≠ .CONNECTED :=
  c1_wwebjs_status_maps_to_disconnected _ "session closed" (by rfl) (by decide)

/-- One collaborator call recorded in a `register_session` trace; a
status call records the `self.token` in force when it is issued. -/
inductive ApiCall where
  | statusCall (token : JVal)
  | createCall
  | startCall
  | qrCall
  | deviceCall

/-- The environment of one `register_session` run: the dict each
collaborator method returns.  `status1`/`status2` are the REST-level
status responses (first poll, and re-poll after token creation); for
the WWebJS flavor `register_session` sees them through the `status()`
normalization (`wwebjsStatus`). -/
structure Env where
  status1 : JObj
  create : JObj
  status2 : JObj
  start : JObj
  qr : JObj
  device : JObj

/-- The observable outcome of a `register_session` run: the returned
dict, the final `self.token`, and the collaborator-call trace. -/
structure RegOut where
  resp : JObj
  token : JVal
  calls : List ApiCall

/-- `wppconnect_api.py:330-379`: the tail of
`WPPConnectAPI.register_session` after the status string in force is
known — the `CONNECTED` branch (start, then host-device on
confirmation), the auto-registration branch (start, then QR preferring
one embedded in the start response), and the verbatim fall-through. -/
def wppFinish (statusResp : JObj) (status : String) (session0 : String) (token : JVal)
    (autoRegister : Bool) (env : Env) (calls0 : List ApiCall) : RegOut :=
  if status = "CONNECTED" then
    if (pyGetD env.start "status" .null).eqStr "CONNECTED" then
      { resp := [("status", .str "CONNECTED"),
                 ("message", .str "Session is already active and connected."),
                 ("device", .obj env.device),
                 ("session", .str session0),
                 ("token", token)],
        token := token,
        calls := calls0 ++ [.startCall, .deviceCall] }
    else
      { resp := env.start, token := token, calls := calls0 ++ [.startCall] }
  else if (status = "QRCODE" ∨ status = "DISCONNECTED" ∨ status = "CLOSED" ∨ status = "")
      ∧ autoRegister then
    if truthy (pyGetD env.start "qrcode" .null) then
      { resp := [("status", .str "AWAITING_QR_SCAN"),
                 ("message", .str "Session created or started. Awaiting QR Code scan."),
                 ("qrcode", pyGetD env.start "qrcode" .null),
                 ("session", .str session0),
                 ("token", token)],
        token := token,
        calls := calls0 ++ [.startCall] }
    else
      { resp := [("status", .str "AWAITING_QR_SCAN"),
                 ("message", .str "Session created or started. Awaiting QR Code scan."),
                 ("qrcode", pyGetD env.qr "qrcode" .null),
                 ("session", .str session0),
                 ("token", token)],
        token := token,
        calls := calls0 ++ [.startCall, .qrCall] }
  else
    { resp := [("status", .str status),
               ("message", .str ("Session status: " ++ status)),
               ("details", .obj statusResp),
               ("qrcode", pyGetD statusResp "qrcode" .null)],
      token := token,
      calls := calls0 }

/-- `wppconnect_api.py:299-379`, `WPPConnectAPI.register_session`
(WPPConnect flavor).  `none` models an uncaught exception (a non-string
`status` field under `.upper()`).  The `"Unauthorized" in
str(status_resp.get("error", "")) or status == ""` guard triggers the
single `create_session` attempt; a non-truthy `token` in its response
is terminal. -/
def wppRegisterSession (env : Env) (session0 : String) (token0 : JVal)
    (autoRegister : Bool) : Option RegOut :=
  match pyUpperStr (pyGetD env.status1 "status" (.str "")) with
  | none => none
  | some status1 =>
    if strContains (pyStr (pyGetD env.status1 "error" (.str ""))) "Unauthorized"
        ∨ status1 = "" then
      if ¬ truthy (pyGetD env.create "token" .null) then
        some { resp := [("status", .str "ERROR"),
                        ("message", .str "Could not create instance or get token."),
                        ("details", .obj env.create)],
               token := token0,
               calls := [.statusCall token0, .createCall] }
      else
        match pyUpperStr (pyGetD env.status2 "status" (.str "")) with
        | none => none
        | some status2 =>
          let token1 := pyGetD env.create "token" .null
          some (wppFinish env.status2 status2 session0 token1 autoRegister env
            [.statusCall token0, .createCall, .statusCall token1])
    else
      some (wppFinish env.status1 status1 session0 token0 autoRegister env
        [.statusCall token0])

/-- `wwebjs_wppconnect_api.py:342-369`: the tail of the WWebJS-flavor
`register_session` — the `CONNECTED` branch returns directly after
fetching device info (no start call), and the auto-registration branch
always calls `start_session()` and then `qrcode()`, taking the QR from
the latter's `qrcode_base64`/`qr`/`qrcode` fields. -/
def wwebjsFinish (statusResp : JObj) (state : String) (session0 : String) (token : JVal)
    (autoRegister : Bool) (env : Env) (calls0 : List ApiCall) : RegOut :=
  if state = "CONNECTED" then
    { resp := [("status", .str "CONNECTED"),
               ("message", .str "Session is already active and connected."),
               ("device", .obj env.device),
               ("session", .str session0),
               ("token", token)],
      token := token,
      calls := calls0 ++ [.deviceCall] }
  else if (state = "QRCODE" ∨ state = "DISCONNECTED" ∨ state = "UNPAIRED" ∨ state = "")
      ∧ autoRegister then
    { resp := [("status", .str "AWAITING_QR_SCAN"),
               ("message", .str "Session created or started. Awaiting QR Code scan."),
               ("qrcode", pyOr (pyOr (pyGetD env.qr "qrcode_base64" .null)
                 (pyGetD env.qr "qr" .null)) (pyGetD env.qr "qrcode" .null)),
               ("session", .str session0),
               ("token", token)],
      token := token,
      calls := calls0 ++ [.startCall, .qrCall] }
  else
    { resp := [("status", .str state),
               ("message", .str ("Session status: " ++ state)),
               ("details", .obj statusResp)],
      token := token,
      calls := calls0 }

/-- `wwebjs_wppconnect_api.py:310-369`, `WPPConnectAPI.register_session`
(WWebJS flavor).  The status responses pass through the `status()`
normalization; the state in force is `(state or status).upper()`; any
`error` key (or an `Unauthorized` marker) triggers the single
`create_session` attempt, terminal when the response has neither a
truthy `token` nor a truthy `ok`; the token is replaced only when a
truthy `token` is present. -/
def wwebjsRegisterSession (env : Env) (session0 : String) (token0 : JVal)
    (autoRegister : Bool) : Option RegOut :=
  match pyUpperStr (pyOr (pyGetD (wwebjsStatus env.status1) "state" .null)
      (pyGetD (wwebjsStatus env.status1) "status" (.str ""))) with
  | none => none
  | some state1 =>
    if hasKey (wwebjsStatus env.status1) "error"
        ∨ strContains (pyStr (pyGetD (wwebjsStatus env.status1) "error" (.str "")))
            "Unauthorized" then
      if ¬ truthy (pyGetD env.create "token" .null)
          ∧ ¬ truthy (pyGetD env.create "ok" .null) then
        some { resp := [("status", .str "ERROR"),
                        ("message", .str "Could not create instance or get token."),
                        ("details", .obj env.create)],
               token := token0,
               calls := [.statusCall token0, .createCall] }
      else
        let token1 := if truthy (pyGetD env.create "token" .null)
          then pyGetD env.create "token" .null else token0
        match pyUpperStr (pyOr (pyGetD (wwebjsStatus env.status2) "state" .null)
            (pyGetD (wwebjsStatus env.status2) "status" (.str ""))) with
        | none => none
        | some state2 =>
          some (wwebjsFinish (wwebjsStatus env.status2) state2 session0 token1 autoRegister env
            [.statusCall token0, .createCall, .statusCall token1])
    else
      some (wwebjsFinish (wwebjsStatus env.status1) state1 session0 token0 autoRegister env
        [.statusCall token0])

/-- Unfolding `wppRegisterSession` once the first status string is
known. -/
theorem wppRegister_step (env : Env) (s0 : String) (t0 : JVal) (a : Bool) (st1 : String)
    (h : pyUpperStr (pyGetD env.status1 "status" (.str "")) = some st1) :
    wppRegisterSession env s0 t0 a =
      if strContains (pyStr (pyGetD env.status1 "error" (.str ""))) "Unauthorized"
          ∨ st1 = "" then
        (if ¬ truthy (pyGetD env.create "token" .null) then
          some { resp := [("status", .str "ERROR"),
                          ("message", .str "Could not create instance or get token."),
                          ("details", .obj env.create)],
                 token := t0,
                 calls := [.statusCall t0, .createCall] }
        else
          match pyUpperStr (pyGetD env.status2 "status" (.str "")) with
          | none => none
          | some status2 =>
            some (wppFinish env.status2 status2 s0 (pyGetD env.create "token" .null) a env
              [.statusCall t0, .createCall, .statusCall (pyGetD env.create "token" .null)]))
      else
        some (wppFinish env.status1 st1 s0 t0 a env [.statusCall t0]) := by
  unfold wppRegisterSession
  rw [h]

/-- Unfolding `wwebjsRegisterSession` once the first effective state is
known. -/
theorem wwebjsRegister_step (env : Env) (s0 : String) (t0 : JVal) (a : Bool) (st1 : String)
    (h : pyUpperStr (pyOr (pyGetD (wwebjsStatus env.status1) "state" .null)
      (pyGetD (wwebjsStatus env.status1) "status" (.str ""))) = some st1) :
    wwebjsRegisterSession env s0 t0 a =
      if hasKey (wwebjsStatus env.status1) "error"
          ∨ strContains (pyStr (pyGetD (wwebjsStatus env.status1) "error" (.str "")))
              "Unauthorized" then
        (if ¬ truthy (pyGetD env.create "token" .null)
            ∧ ¬ truthy (pyGetD env.create "ok" .null) then
          some { resp := [("status", .str "ERROR"),
                          ("message", .str "Could not create instance or get token."),
                          ("details", .obj env.create)],
                 token := t0,
                 calls := [.statusCall t0, .createCall] }
        else
          let token1 := if truthy (pyGetD env.create "token" .null)
            then pyGetD env.create "token" .null else t0
          match pyUpperStr (pyOr (pyGetD (wwebjsStatus env.status2) "state" .null)
            (pyGetD (wwebjsStatus env.status2) "status" (.str ""))) with
          | none => none
          | some state2 =>
            some (wwebjsFinish (wwebjsStatus env.status2) state2 s0 token1 a env
              [.statusCall t0, .createCall, .statusCall token1]))
      else
        some (wwebjsFinish (wwebjsStatus env.status1) st1 s0 t0 a env
          [.statusCall t0]) := by
  unfold wwebjsRegisterSession
  rw [h]

/-- If a key is absent, its `get` yields the default. -/
theorem pyGetD_of_hasKey_false {o : JObj} {k : String} (h : hasKey o k = false) (d : JVal) :
    pyGetD o k d = d := by
  cases hlk : lookupKey o k with
  | none => simp [pyGetD, hlk]
  | some v => simp [hasKey, hlk] at h

/-- C4 counterexample: on the WPPConnect flavor, with the initial status
poll reporting `CONNECTED` but the start/refresh call reporting
`QRCODE`, `register_session` returns the start response verbatim — an
outcome that does not carry the pre-existing token (no `token` field at
all), contradicting the claim that the outcome always carries it. -/
theorem c4_counterexample :
    wppRegisterSession
        ⟨[("status", .str "CONNECTED")], [], [], [("status", .str "QRCODE")], [], []⟩
        "sess" (.str "tok0") true
      = some ⟨[("status", .str "QRCODE")], .str "tok0",
          [.statusCall (.str "tok0"), .startCall]⟩ ∧
    lookupKey [("status", JVal.str "QRCODE")] "token" = none := by
  exact ⟨rfl, rfl⟩

/-- C4 as amended: on the path where the initial status poll maps to
`CONNECTED` (and no authorization failure is signalled),
`register_session` never calls `create_session` and leaves the stored
token unchanged on both flavors; the returned outcome carries the
pre-existing token on the WWebJS flavor always, and on the WPPConnect
flavor exactly when the start/refresh call confirms `CONNECTED` —
otherwise the start response is returned verbatim, without the token. -/
theorem c4_connected_path_frame (envW envJ : Env) (sW sJ : String) (tW tJ : JVal)
    (aW aJ : Bool) (outW outJ : RegOut)
    (hW1 : pyUpperStr (pyGetD envW.status1 "status" (.str "")) = some "CONNECTED")
    (hWa : strContains (pyStr (pyGetD envW.status1 "error" (.str ""))) "Unauthorized" = false)
    (hWout : wppRegisterSession envW sW tW aW = some outW)
    (hJ1 : pyUpperStr (pyOr (pyGetD (wwebjsStatus envJ.status1) "state" .null)
      (pyGetD (wwebjsStatus envJ.status1) "status" (.str ""))) = some "CONNECTED")
    (hJe : hasKey (wwebjsStatus envJ.status1) "error" = false)
    (hJout : wwebjsRegisterSession envJ sJ tJ aJ = some outJ) :
    (ApiCall.createCall ∉ outW.calls ∧ outW.token = tW ∧
      ((pyGetD envW.start "status" .null).eqStr "CONNECTED" = true →
        lookupKey outW.resp "token" = some tW ∧
        lookupKey outW.resp "status" = some (.str "CONNECTED")) ∧
      ((pyGetD envW.start "status" .null).eqStr "CONNECTED" = false →
        outW.resp = envW.start)) ∧
    (ApiCall.createCall ∉ outJ.calls ∧ outJ.token = tJ ∧
      lookupKey outJ.resp "token" = some tJ ∧
      lookupKey outJ.resp "status" = some (.str "CONNECTED")) := by
  constructor
  · rw [wppRegister_step envW sW tW aW "CONNECTED" hW1] at hWout
    rw [if_neg (by simp [hWa])] at hWout
    unfold wppFinish at hWout
    rw [if_pos rfl] at hWout
    by_cases hst : (pyGetD envW.start "status" .null).eqStr "CONNECTED" = true
    · rw [if_pos hst] at hWout
      obtain rfl : _ = outW := Option.some_injective _ hWout
      refine ⟨by simp, rfl, fun _ => ⟨by simp [lookupKey], by simp [lookupKey]⟩, ?_⟩
      intro hst'
      rw [hst] at hst'
      exact absurd hst' (by simp)
    · rw [if_neg hst] at hWout
      obtain rfl : _ = outW := Option.some_injective _ hWout
      refine ⟨by simp, rfl, fun hst' => absurd hst' hst, fun _ => rfl⟩
  · have herr : pyGetD (wwebjsStatus envJ.status1) "error" (.str "") = .str "" :=
      pyGetD_of_hasKey_false hJe _
    rw [wwebjsRegister_step envJ sJ tJ aJ "CONNECTED" hJ1] at hJout
    rw [if_neg (by simp [hJe, herr, pyStr, strContains, charsContain])] at hJout
    unfold wwebjsFinish at hJout
    rw [if_pos rfl] at hJout
    obtain rfl : _ = outJ := Option.some_injective _ hJout
    exact ⟨by simp, rfl, by simp [lookupKey], by simp [lookupKey]⟩

/-- Witness for C4 (amended) with both flavors on the confirmed
`CONNECTED` path. -/
theorem c4_connected_path_frame_witness :
    (ApiCall.createCall ∉ [ApiCall.statusCall (.str "t"), ApiCall.startCall,
      ApiCall.deviceCall] ∧ (JVal.str "t") = JVal.str "t" ∧
      ((pyGetD [("status", JVal.str "CONNECTED")] "status" .null).eqStr "CONNECTED" = true →
        lookupKey [("status", .str "CONNECTED"),
          ("message", .str "Session is already active and connected."),
          ("device", .obj []), ("session", .str "s"), ("token", .str "t")] "token"
            = some (.str "t") ∧
        lookupKey [("status", .str "CONNECTED"),
          ("message", .str "Session is already active and connected."),
          ("device", .obj []), ("session", .str "s"), ("token", .str "t")] "status"
            = some (.str "CONNECTED")) ∧
      ((pyGetD [("status", JVal.str "CONNECTED")] "status" .null).eqStr "CONNECTED" = false →
        [("status", .str "CONNECTED"),
          ("message", .str "Session is already active and connected."),
          ("device", .obj []), ("session", .str "s"), ("token", .str "t")]
          = [("status", JVal.str "CONNECTED")])) ∧
    (ApiCall.createCall ∉ [ApiCall.statusCall (.str "t"), ApiCall.deviceCall] ∧
      (JVal.str "t") = JVal.str "t" ∧
      lookupKey [("status", .str "CONNECTED"),
        ("message", .str "Session is already active and connected."),
        ("device", .obj []), ("session", .str "s"), ("token", .str "t")] "token"
          = some (.str "t") ∧
      lookupKey [("status", .str "CONNECTED"),
        ("message", .str "Session is already active and connected."),
        ("device", .obj []), ("session", .str "s"), ("token", .str "t")] "status"
          = some (.str "CONNECTED")) :=
  c4_connected_path_frame
    ⟨[("status", .str "CONNECTED")], [], [], [("status", .str "CONNECTED")], [], []⟩
    ⟨[("message", .str "session_connected")], [], [], [], [], []⟩
    "s" "s" (.str "t") (.str "t") true true
    ⟨[("status", .str "CONNECTED"),
      ("message", .str "Session is already active and connected."),
      ("device", .obj []), ("session", .str "s"), ("token", .str "t")], .str "t",
      [.statusCall (.str "t"), .startCall, .deviceCall]⟩
    ⟨[("status", .str "CONNECTED"),
      ("message", .str "Session is already active and connected."),
      ("device", .obj []), ("session", .str "s"), ("token", .str "t")], .str "t",
      [.statusCall (.str "t"), .deviceCall]⟩
    (by rfl) (by rfl) (by rfl) (by rfl) (by rfl) (by rfl)

/-- Is a trace entry the `create_session` call? -/
def isCreateCall : ApiCall → Bool
  | .createCall => true
  | _ => false

/-- Is a trace entry a `status` call? -/
def isStatusCall : ApiCall → Bool
  | .statusCall _ => true
  | _ => false

/-- Is a trace entry the dedicated `qrcode` call? -/
def isQrCall : ApiCall → Bool
  | .qrCall => true
  | _ => false

/-- The tail of the WPPConnect `register_session` adds no
`create_session` and no `status` call to the trace. -/
theorem wppFinish_calls (sr : JObj) (st s0 : String) (tk : JVal) (a : Bool)
    (env : Env) (cs : List ApiCall) :
    ((wppFinish sr st s0 tk a env cs).calls.countP (fun c => isCreateCall c))
        = cs.countP (fun c => isCreateCall c) ∧
    ((wppFinish sr st s0 tk a env cs).calls.filter (fun c => isStatusCall c))
        = cs.filter (fun c => isStatusCall c) := by
  unfold wppFinish
  split_ifs <;> simp [isCreateCall, isStatusCall]

/-- The tail of the WWebJS `register_session` adds no `create_session`
and no `status` call to the trace. -/
theorem wwebjsFinish_calls (sr : JObj) (st s0 : String) (tk : JVal) (a : Bool)
    (env : Env) (cs : List ApiCall) :
    ((wwebjsFinish sr st s0 tk a env cs).calls.countP (fun c => isCreateCall c))
        = cs.countP (fun c => isCreateCall c) ∧
    ((wwebjsFinish sr st s0 tk a env cs).calls.filter (fun c => isStatusCall c))
        = cs.filter (fun c => isStatusCall c) := by
  unfold wwebjsFinish
  split_ifs <;> simp [isCreateCall, isStatusCall]

/-- WPPConnect `register_session`, re-authentication path, terminal
failure: the `create_session` response has no truthy token. -/
theorem wppRegister_stepError (env : Env) (s0 : String) (t0 : JVal) (a : Bool) (st1 : String)
    (h1 : pyUpperStr (pyGetD env.status1 "status" (.str "")) = some st1)
    (hcond : strContains (pyStr (pyGetD env.status1 "error" (.str ""))) "Unauthorized" = true
      ∨ st1 = "")
    (htok : truthy (pyGetD env.create "token" .null) = false) :
    wppRegisterSession env s0 t0 a =
      some { resp := [("status", .str "ERROR"),
                      ("message", .str "Could not create instance or get token."),
                      ("details", .obj env.create)],
             token := t0,
             calls := [.statusCall t0, .createCall] } := by
  rw [wppRegister_step env s0 t0 a st1 h1, if_pos hcond, if_pos (by simp [htok])]

/-- WPPConnect `register_session`, re-authentication path, token
obtained: the status is re-polled once with the new token and the run
finishes from the re-polled status. -/
theorem wppRegister_stepRetry (env : Env) (s0 : String) (t0 : JVal) (a : Bool)
    (st1 st2 : String)
    (h1 : pyUpperStr (pyGetD env.status1 "status" (.str "")) = some st1)
    (hcond : strContains (pyStr (pyGetD env.status1 "error" (.str ""))) "Unauthorized" = true
      ∨ st1 = "")
    (htok : truthy (pyGetD env.create "token" .null) = true)
    (h2 : pyUpperStr (pyGetD env.status2 "status" (.str "")) = some st2) :
    wppRegisterSession env s0 t0 a =
      some (wppFinish env.status2 st2 s0 (pyGetD env.create "token" .null) a env
        [.statusCall t0, .createCall, .statusCall (pyGetD env.create "token" .null)]) := by
  rw [wppRegister_step env s0 t0 a st1 h1, if_pos hcond, if_neg (by simp [htok]), h2]

/-- WPPConnect `register_session`, no re-authentication: the run
finishes from the first status. -/
theorem wppRegister_stepDirect (env : Env) (s0 : String) (t0 : JVal) (a : Bool) (st1 : String)
    (h1 : pyUpperStr (pyGetD env.status1 "status" (.str "")) = some st1)
    (hcond : strContains (pyStr (pyGetD env.status1 "error" (.str ""))) "Unauthorized" = false)
    (hne : st1 ≠ "") :
    wppRegisterSession env s0 t0 a =
      some (wppFinish env.status1 st1 s0 t0 a env [.statusCall t0]) := by
  rw [wppRegister_step env s0 t0 a st1 h1, if_neg (by simp [hcond, hne])]

/-- WWebJS `register_session`, re-authentication path, terminal
failure: no truthy token and no truthy success flag. -/
theorem wwebjsRegister_stepError (env : Env) (s0 : String) (t0 : JVal) (a : Bool) (st1 : String)
    (h1 : pyUpperStr (pyOr (pyGetD (wwebjsStatus env.status1) "state" .null)
      (pyGetD (wwebjsStatus env.status1) "status" (.str ""))) = some st1)
    (hcond : hasKey (wwebjsStatus env.status1) "error" = true
      ∨ strContains (pyStr (pyGetD (wwebjsStatus env.status1) "error" (.str "")))
          "Unauthorized" = true)
    (htok : truthy (pyGetD env.create "token" .null) = false)
    (hok : truthy (pyGetD env.create "ok" .null) = false) :
    wwebjsRegisterSession env s0 t0 a =
      some { resp := [("status", .str "ERROR"),
                      ("message", .str "Could not create instance or get token."),
                      ("details", .obj env.create)],
             token := t0,
             calls := [.statusCall t0, .createCall] } := by
  rw [wwebjsRegister_step env s0 t0 a st1 h1, if_pos hcond, if_pos (by simp [htok, hok])]

/-- WWebJS `register_session`, re-authentication path, token obtained:
the status is re-polled once with the new token and the run finishes
from the re-polled status. -/
theorem wwebjsRegister_stepRetry (env : Env) (s0 : String) (t0 : JVal) (a : Bool)
    (st1 st2 : String)
    (h1 : pyUpperStr (pyOr (pyGetD (wwebjsStatus env.status1) "state" .null)
      (pyGetD (wwebjsStatus env.status1) "status" (.str ""))) = some st1)
    (hcond : hasKey (wwebjsStatus env.status1) "error" = true
      ∨ strContains (pyStr (pyGetD (wwebjsStatus env.status1) "error" (.str "")))
          "Unauthorized" = true)
    (htok : truthy (pyGetD env.create "token" .null) = true)
    (h2 : pyUpperStr (pyOr (pyGetD (wwebjsStatus env.status2) "state" .null)
      (pyGetD (wwebjsStatus env.status2) "status" (.str ""))) = some st2) :
    wwebjsRegisterSession env s0 t0 a =
      some (wwebjsFinish (wwebjsStatus env.status2) st2 s0
        (pyGetD env.create "token" .null) a env
        [.statusCall t0, .createCall, .statusCall (pyGetD env.create "token" .null)]) := by
  rw [wwebjsRegister_step env s0 t0 a st1 h1, if_pos hcond, if_neg (by simp [htok])]
  simp only [htok, if_true]
  rw [h2]

/-- WWebJS `register_session`, no re-authentication: the run finishes
from the first normalized status. -/
theorem wwebjsRegister_stepDirect (env : Env) (s0 : String) (t0 : JVal) (a : Bool)
    (st1 : String)
    (h1 : pyUpperStr (pyOr (pyGetD (wwebjsStatus env.status1) "state" .null)
      (pyGetD (wwebjsStatus env.status1) "status" (.str ""))) = some st1)
    (he : hasKey (wwebjsStatus env.status1) "error" = false)
    (hu : strContains (pyStr (pyGetD (wwebjsStatus env.status1) "error" (.str "")))
      "Unauthorized" = false) :
    wwebjsRegisterSession env s0 t0 a =
      some (wwebjsFinish (wwebjsStatus env.status1) st1 s0 t0 a env
        [.statusCall t0]) := by
  rw [wwebjsRegister_step env s0 t0 a st1 h1, if_neg (by simp [he, hu])]

/-- C3 counterexample: WPPConnect flavor, unauthorized first status,
token creation succeeds with `"T"`, the single status retry reports
`CONNECTED` — but the final outcome is the start response (status
`QRCODE`), not `CONNECTED`, because the `CONNECTED` branch additionally
requires the start/refresh call to report `CONNECTED`. -/
theorem c3_counterexample :
    pyUpperStr (pyGetD ([("status", JVal.str "CONNECTED")] : JObj) "status" (.str ""))
      = some "CONNECTED" ∧
    wppRegisterSession
        ⟨[("error", .str "Unauthorized")], [("token", .str "T")],
         [("status", .str "CONNECTED")], [("status", .str "QRCODE")], [], []⟩
        "s" (.str "old") true
      = some ⟨[("status", .str "QRCODE")], .str "T",
          [.statusCall (.str "old"), .createCall, .statusCall (.str "T"), .startCall]⟩ ∧
    lookupKey [("status", JVal.str "QRCODE")] "status" ≠ some (.str "CONNECTED") := by
  refine ⟨rfl, rfl, ?_⟩
  simp [lookupKey]

/-- C3 as amended: when the initial status signals an authorization
failure (an `error` whose text contains `Unauthorized`), both flavors
attempt `create_session` exactly once; with no truthy token (and, on
WWebJS, no truthy success flag) the run stops at `ERROR` with no
re-poll and no further calls; with a token, the status is re-polled
exactly once, with the new token, and if that retry reports `CONNECTED`
the outcome is `CONNECTED` — directly on the WWebJS flavor, and on the
WPPConnect flavor provided the subsequent start/refresh call also
reports `CONNECTED`. -/
theorem c3_auth_failure_single_create (envW envJ : Env) (sW sJ : String) (tW tJ : JVal)
    (aW aJ : Bool) (stW1 stW2 stJ1 stJ2 : String) (outW outJ : RegOut)
    (hW1 : pyUpperStr (pyGetD envW.status1 "status" (.str "")) = some stW1)
    (hWa : strContains (pyStr (pyGetD envW.status1 "error" (.str ""))) "Unauthorized" = true)
    (hW2 : pyUpperStr (pyGetD envW.status2 "status" (.str "")) = some stW2)
    (hWout : wppRegisterSession envW sW tW aW = some outW)
    (hJ1 : pyUpperStr (pyOr (pyGetD (wwebjsStatus envJ.status1) "state" .null)
      (pyGetD (wwebjsStatus envJ.status1) "status" (.str ""))) = some stJ1)
    (hJa : strContains (pyStr (pyGetD (wwebjsStatus envJ.status1) "error" (.str "")))
      "Unauthorized" = true)
    (hJ2 : pyUpperStr (pyOr (pyGetD (wwebjsStatus envJ.status2) "state" .null)
      (pyGetD (wwebjsStatus envJ.status2) "status" (.str ""))) = some stJ2)
    (hJout : wwebjsRegisterSession envJ sJ tJ aJ = some outJ) :
    ((truthy (pyGetD envW.create "token" .null) = false →
       outW.resp = [("status", .str "ERROR"),
         ("message", .str "Could not create instance or get token."),
         ("details", .obj envW.create)] ∧
       outW.token = tW ∧
       outW.calls = [.statusCall tW, .createCall]) ∧
     (truthy (pyGetD envW.create "token" .null) = true →
       outW.calls.countP (fun c => isCreateCall c) = 1 ∧
       outW.calls.filter (fun c => isStatusCall c)
         = [.statusCall tW, .statusCall (pyGetD envW.create "token" .null)] ∧
       (stW2 = "CONNECTED" →
         (pyGetD envW.start "status" .null).eqStr "CONNECTED" = true →
         lookupKey outW.resp "status" = some (.str "CONNECTED")))) ∧
    ((truthy (pyGetD envJ.create "token" .null) = false →
        truthy (pyGetD envJ.create "ok" .null) = false →
       outJ.resp = [("status", .str "ERROR"),
         ("message", .str "Could not create instance or get token."),
         ("details", .obj envJ.create)] ∧
       outJ.token = tJ ∧
       outJ.calls = [.statusCall tJ, .createCall]) ∧
     (truthy (pyGetD envJ.create "token" .null) = true →
       outJ.calls.countP (fun c => isCreateCall c) = 1 ∧
       outJ.calls.filter (fun c => isStatusCall c)
         = [.statusCall tJ, .statusCall (pyGetD envJ.create "token" .null)] ∧
       (stJ2 = "CONNECTED" → lookupKey outJ.resp "status" = some (.str "CONNECTED")))) := by
  constructor
  · by_cases htok : truthy (pyGetD envW.create "token" .null) = true
    · refine ⟨fun h => absurd htok (by simp [h]), fun _ => ?_⟩
      rw [wppRegister_stepRetry envW sW tW aW stW1 stW2 hW1 (Or.inl hWa) htok hW2] at hWout
      obtain rfl : _ = outW := Option.some_injective _ hWout
      refine ⟨?_, ?_, ?_⟩
      · rw [(wppFinish_calls envW.status2 stW2 sW _ aW envW _).1]
        simp [isCreateCall, List.countP_cons]
      · rw [(wppFinish_calls envW.status2 stW2 sW _ aW envW _).2]
        simp [isStatusCall, isCreateCall]
      · intro h2c hst
        subst h2c
        unfold wppFinish
        rw [if_pos rfl, if_pos hst]
        simp [lookupKey]
    · rw [Bool.not_eq_true] at htok
      refine ⟨fun _ => ?_, fun h => absurd h (by simp [htok])⟩
      rw [wppRegister_stepError envW sW tW aW stW1 hW1 (Or.inl hWa) htok] at hWout
      obtain rfl : _ = outW := Option.some_injective _ hWout
      exact ⟨rfl, rfl, rfl⟩
  · by_cases htok : truthy (pyGetD envJ.create "token" .null) = true
    · refine ⟨fun h => absurd htok (by simp [h]), fun _ => ?_⟩
      rw [wwebjsRegister_stepRetry envJ sJ tJ aJ stJ1 stJ2 hJ1 (Or.inr hJa) htok hJ2] at hJout
      obtain rfl : _ = outJ := Option.some_injective _ hJout
      refine ⟨?_, ?_, ?_⟩
      · rw [(wwebjsFinish_calls (wwebjsStatus envJ.status2) stJ2 sJ _ aJ envJ _).1]
        simp [isCreateCall, List.countP_cons]
      · rw [(wwebjsFinish_calls (wwebjsStatus envJ.status2) stJ2 sJ _ aJ envJ _).2]
        simp [isStatusCall, isCreateCall]
      · intro h2c
        subst h2c
        unfold wwebjsFinish
        rw [if_pos rfl]
        simp [lookupKey]
    · rw [Bool.not_eq_true] at htok
      refine ⟨fun _ hok => ?_, fun h => absurd h (by simp [htok])⟩
      rw [wwebjsRegister_stepError envJ sJ tJ aJ stJ1 hJ1 (Or.inr hJa) htok hok] at hJout
      obtain rfl : _ = outJ := Option.some_injective _ hJout
      exact ⟨rfl, rfl, rfl⟩

/-- Witness for C3 (amended): both flavors, unauthorized first status,
token `"T"` obtained, retry `CONNECTED` (and the WPPConnect start call
confirming), ending `CONNECTED`. -/
theorem c3_auth_failure_single_create_witness :
    ([ApiCall.statusCall (.str "old"), ApiCall.createCall, ApiCall.statusCall (.str "T"),
        ApiCall.startCall, ApiCall.deviceCall].filter (fun c => isStatusCall c)
      = [ApiCall.statusCall (.str "old"), ApiCall.statusCall (JVal.str "T")]) ∧
    lookupKey [("status", .str "CONNECTED"),
      ("message", .str "Session is already active and connected."),
      ("device", .obj []), ("session", .str "s"), ("token", .str "T")] "status"
        = some (.str "CONNECTED") ∧
    ([ApiCall.statusCall (.str "old"), ApiCall.createCall, ApiCall.statusCall (.str "T"),
        ApiCall.deviceCall].countP (fun c => isCreateCall c) = 1) ∧
    lookupKey [("status", .str "CONNECTED"),
      ("message", .str "Session is already active and connected."),
      ("device", .obj []), ("session", .str "s"), ("token", .str "T")] "status"
        = some (JVal.str "CONNECTED") := by
  have h := c3_auth_failure_single_create
    ⟨[("error", .str "Unauthorized")], [("token", .str "T")],
     [("status", .str "CONNECTED")], [("status", .str "CONNECTED")], [], []⟩
    ⟨[("error", .str "Unauthorized")], [("token", .str "T")],
     [("message", .str "session_connected")], [], [], []⟩
    "s" "s" (.str "old") (.str "old") true true
    "" "CONNECTED" "" "CONNECTED"
    ⟨[("status", .str "CONNECTED"),
      ("message", .str "Session is already active and connected."),
      ("device", .obj []), ("session", .str "s"), ("token", .str "T")], .str "T",
      [.statusCall (.str "old"), .createCall, .statusCall (.str "T"),
        .startCall, .deviceCall]⟩
    ⟨[("status", .str "CONNECTED"),
      ("message", .str "Session is already active and connected."),
      ("device", .obj []), ("session", .str "s"), ("token", .str "T")], .str "T",
      [.statusCall (.str "old"), .createCall, .statusCall (.str "T"), .deviceCall]⟩
    (by rfl) (by rfl) (by rfl) (by rfl) (by rfl) (by rfl) (by rfl) (by rfl)
  exact ⟨(h.1.2 (by rfl)).2.1, (h.1.2 (by rfl)).2.2 rfl (by rfl),
    (h.2.2 (by rfl)).1, (h.2.2 (by rfl)).2.2 rfl⟩

/-- The WPPConnect auto-registration branch: start, then QR (embedded
in the start response when truthy, else the dedicated endpoint's
`qrcode` field). -/
theorem wppFinish_qr (sr : JObj) (st s0 : String) (tk : JVal) (env : Env)
    (cs : List ApiCall) (hnc : st ≠ "CONNECTED")
    (hmem : st = "QRCODE" ∨ st = "DISCONNECTED" ∨ st = "CLOSED" ∨ st = "") :
    wppFinish sr st s0 tk true env cs =
      if truthy (pyGetD env.start "qrcode" .null) then
        { resp := [("status", .str "AWAITING_QR_SCAN"),
                   ("message", .str "Session created or started. Awaiting QR Code scan."),
                   ("qrcode", pyGetD env.start "qrcode" .null),
                   ("session", .str s0),
                   ("token", tk)],
          token := tk,
          calls := cs ++ [.startCall] }
      else
        { resp := [("status", .str "AWAITING_QR_SCAN"),
                   ("message", .str "Session created or started. Awaiting QR Code scan."),
                   ("qrcode", pyGetD env.qr "qrcode" .null),
                   ("session", .str s0),
                   ("token", tk)],
          token := tk,
          calls := cs ++ [.startCall, .qrCall] } := by
  unfold wppFinish
  rw [if_neg hnc, if_pos ⟨hmem, rfl⟩]

/-- C2 counterexample: a blank raw status (which is in the claimed
vocabulary) routes through the token-creation attempt; when that
attempt fails (here: the stock `secret_key required` failure),
`register_session` with `auto_register=True` returns an `ERROR`
outcome, contradicting "never returns ERROR". -/
theorem c2_counterexample :
    wppRegisterSession
        ⟨[("status", .str "")],
         [("ok", .bool false), ("error", .str "secret_key required")], [], [], [], []⟩
        "s" (.str "tok") true
      = some ⟨[("status", .str "ERROR"),
               ("message", .str "Could not create instance or get token."),
               ("details", .obj [("ok", .bool false),
                 ("error", .str "secret_key required")])],
              .str "tok", [.statusCall (.str "tok"), .createCall]⟩ ∧
    pyToUpper "" ∈ ["QRCODE", "DISCONNECTED", "CLOSED", ""] := by
  exact ⟨rfl, by decide⟩

/-- C2 as amended: for a WPPConnect status response with no
`Unauthorized` marker and status (uppercased) in
`{QRCODE, DISCONNECTED, CLOSED}`, `register_session` with
`auto_register=True` returns `AWAITING_QR_SCAN` — never `ERROR` — with
the QR taken from the start response when truthy, else from the
dedicated endpoint's `qrcode` field; a truthy QR source yields a truthy
QR in the outcome.  For a blank status the same holds provided the
single token-creation attempt yields a truthy token and the re-polled
status is again in the vocabulary (otherwise the run is terminal, as
the counterexample shows). -/
theorem c2_autoregister_awaiting_qr (env : Env) (s0 : String) (t0 : JVal)
    (st1 : String) (out : RegOut)
    (h1 : pyUpperStr (pyGetD env.status1 "status" (.str "")) = some st1)
    (ha : strContains (pyStr (pyGetD env.status1 "error" (.str ""))) "Unauthorized" = false)
    (hout : wppRegisterSession env s0 t0 true = some out) :
    (st1 = "QRCODE" ∨ st1 = "DISCONNECTED" ∨ st1 = "CLOSED" →
      lookupKey out.resp "status" = some (.str "AWAITING_QR_SCAN") ∧
      lookupKey out.resp "status" ≠ some (.str "ERROR") ∧
      lookupKey out.resp "qrcode" = some (if truthy (pyGetD env.start "qrcode" .null)
        then pyGetD env.start "qrcode" .null else pyGetD env.qr "qrcode" .null) ∧
      ((truthy (pyGetD env.start "qrcode" .null) = true ∨
          (truthy (pyGetD env.start "qrcode" .null) = false ∧
            truthy (pyGetD env.qr "qrcode" .null) = true)) →
        truthy ((lookupKey out.resp "qrcode").getD .null) = true)) ∧
    (st1 = "" →
      truthy (pyGetD env.create "token" .null) = true →
      ∀ st2, pyUpperStr (pyGetD env.status2 "status" (.str "")) = some st2 →
        (st2 = "QRCODE" ∨ st2 = "DISCONNECTED" ∨ st2 = "CLOSED" ∨ st2 = "") →
        lookupKey out.resp "status" = some (.str "AWAITING_QR_SCAN") ∧
        lookupKey out.resp "status" ≠ some (.str "ERROR")) := by
  constructor
  · intro hmem
    have hne : st1 ≠ "" := by
      rcases hmem with rfl | rfl | rfl <;> decide
    have hnc : st1 ≠ "CONNECTED" := by
      rcases hmem with rfl | rfl | rfl <;> decide
    rw [wppRegister_stepDirect env s0 t0 true st1 h1 ha hne] at hout
    rw [wppFinish_qr env.status1 st1 s0 t0 env [.statusCall t0] hnc
      (by rcases hmem with rfl | rfl | rfl
          · exact Or.inl rfl
          · exact Or.inr (Or.inl rfl)
          · exact Or.inr (Or.inr (Or.inl rfl)))] at hout
    by_cases hq : truthy (pyGetD env.start "qrcode" .null) = true
    · rw [if_pos hq] at hout
      obtain rfl : _ = out := Option.some_injective _ hout
      refine ⟨by simp [lookupKey], by simp [lookupKey], ?_, ?_⟩
      · rw [if_pos hq]
        simp [lookupKey]
      · intro _
        simp [lookupKey, hq]
    · rw [if_neg hq] at hout
      obtain rfl : _ = out := Option.some_injective _ hout
      rw [Bool.not_eq_true] at hq
      refine ⟨by simp [lookupKey], by simp [lookupKey], ?_, ?_⟩
      · rw [if_neg (by simp [hq])]
        simp [lookupKey]
      · rintro (hq' | ⟨_, hq'⟩)
        · rw [hq'] at hq
          exact absurd hq (by simp)
        · simp [lookupKey, hq']
  · intro h0 htok st2 h2 hmem2
    rw [wppRegister_stepRetry env s0 t0 true st1 st2 h1 (Or.inr h0) htok h2] at hout
    have hnc2 : st2 ≠ "CONNECTED" := by
      rcases hmem2 with rfl | rfl | rfl | rfl <;> decide
    rw [wppFinish_qr env.status2 st2 s0 _ env _ hnc2 hmem2] at hout
    by_cases hq : truthy (pyGetD env.start "qrcode" .null) = true
    · rw [if_pos hq] at hout
      obtain rfl : _ = out := Option.some_injective _ hout
      exact ⟨by simp [lookupKey], by simp [lookupKey]⟩
    · rw [if_neg hq] at hout
      obtain rfl : _ = out := Option.some_injective _ hout
      exact ⟨by simp [lookupKey], by simp [lookupKey]⟩

/-- Witness for C2 (amended) at a `QRCODE` status with the QR delivered
by the start response, and at a blank status with token creation
succeeding and the re-poll reporting `DISCONNECTED`. -/
theorem c2_autoregister_awaiting_qr_witness :
    (lookupKey [("status", .str "AWAITING_QR_SCAN"),
        ("message", .str "Session created or started. Awaiting QR Code scan."),
        ("qrcode", JVal.str "QRDATA"), ("session", .str "s"), ("token", .str "tok")]
        "status" = some (.str "AWAITING_QR_SCAN")) ∧
    (truthy ((lookupKey [("status", .str "AWAITING_QR_SCAN"),
        ("message", .str "Session created or started. Awaiting QR Code scan."),
        ("qrcode", JVal.str "QRDATA"), ("session", .str "s"), ("token", .str "tok")]
        "qrcode").getD .null) = true) ∧
    (lookupKey [("status", .str "AWAITING_QR_SCAN"),
        ("message", .str "Session created or started. Awaiting QR Code scan."),
        ("qrcode", JVal.null), ("session", .str "s"), ("token", .str "T")]
        "status" ≠ some (.str "ERROR")) := by
  have hA := c2_autoregister_awaiting_qr
    ⟨[("status", .str "QRCODE")], [], [], [("qrcode", .str "QRDATA")], [], []⟩
    "s" (.str "tok") "QRCODE"
    ⟨[("status", .str "AWAITING_QR_SCAN"),
      ("message", .str "Session created or started. Awaiting QR Code scan."),
      ("qrcode", .str "QRDATA"), ("session", .str "s"), ("token", .str "tok")],
      .str "tok", [.statusCall (.str "tok"), .startCall]⟩
    (by rfl) (by rfl) (by rfl)
  have hB := c2_autoregister_awaiting_qr
    ⟨[("status", .str "")], [("token", .str "T")], [("status", .str "DISCONNECTED")],
      [], [], []⟩
    "s" (.str "tok") ""
    ⟨[("status", .str "AWAITING_QR_SCAN"),
      ("message", .str "Session created or started. Awaiting QR Code scan."),
      ("qrcode", .null), ("session", .str "s"), ("token", .str "T")],
      .str "T", [.statusCall (.str "tok"), .createCall, .statusCall (.str "T"),
        .startCall, .qrCall]⟩
    (by rfl) (by rfl) (by rfl)
  refine ⟨(hA.1 (Or.inl rfl)).1, (hA.1 (Or.inl rfl)).2.2.2 (Or.inl (by rfl)), ?_⟩
  exact (hB.2 rfl (by rfl) "DISCONNECTED" (by rfl)
    (Or.inr (Or.inl rfl))).2

/-- The WWebJS auto-registration branch: start, then always the
dedicated QR endpoint, whose `qrcode_base64`/`qr`/`qrcode` fields
supply the QR. -/
theorem wwebjsFinish_qr (sr : JObj) (st s0 : String) (tk : JVal) (env : Env)
    (cs : List ApiCall) (hnc : st ≠ "CONNECTED")
    (hmem : st = "QRCODE" ∨ st = "DISCONNECTED" ∨ st = "UNPAIRED" ∨ st = "") :
    wwebjsFinish sr st s0 tk true env cs =
      { resp := [("status", .str "AWAITING_QR_SCAN"),
                 ("message", .str "Session created or started. Awaiting QR Code scan."),
                 ("qrcode", pyOr (pyOr (pyGetD env.qr "qrcode_base64" .null)
                   (pyGetD env.qr "qr" .null)) (pyGetD env.qr "qrcode" .null)),
                 ("session", .str s0),
                 ("token", tk)],
        token := tk,
        calls := cs ++ [.startCall, .qrCall] } := by
  unfold wwebjsFinish
  rw [if_neg hnc, if_pos ⟨hmem, rfl⟩]

/-- C9 counterexample: on the WWebJS flavor the start response embeds a
truthy QR (`"EMB"`), yet `register_session` still issues the dedicated
QR endpoint and returns its value (`"QR2"`), not the embedded one. -/
theorem c9_counterexample :
    truthy (pyGetD ([("qrcode", JVal.str "EMB")] : JObj) "qrcode" .null) = true ∧
    wwebjsRegisterSession
        ⟨[("message", .str "session_not_connected")], [], [],
         [("qrcode", .str "EMB")],
         [("ok", .bool true), ("qrcode_base64", .str "QR2"), ("qrcode", .str "QR2")], []⟩
        "s" (.str "tok") true
      = some ⟨[("status", .str "AWAITING_QR_SCAN"),
               ("message", .str "Session created or started. Awaiting QR Code scan."),
               ("qrcode", .str "QR2"), ("session", .str "s"), ("token", .str "tok")],
              .str "tok", [.statusCall (.str "tok"), .startCall, .qrCall]⟩ ∧
    ApiCall.qrCall ∈ [ApiCall.statusCall (JVal.str "tok"), ApiCall.startCall,
      ApiCall.qrCall] ∧
    some (JVal.str "QR2") ≠ some (JVal.str "EMB") := by
  refine ⟨rfl, rfl, by simp, by simp⟩

/-- C9 as amended: on the WPPConnect flavor the auto-registration path
prefers a truthy QR embedded in the start response — the dedicated QR
endpoint is then not called — and issues the dedicated endpoint only
when the start response carries no truthy QR.  On the WWebJS flavor the
dedicated QR endpoint is always called and its response supplies the
returned QR, ignoring any QR embedded in the start response. -/
theorem c9_qr_source_preference (envW envJ : Env) (sW sJ : String) (tW tJ : JVal)
    (stW1 stJ1 : String) (outW outJ : RegOut)
    (hW1 : pyUpperStr (pyGetD envW.status1 "status" (.str "")) = some stW1)
    (hWa : strContains (pyStr (pyGetD envW.status1 "error" (.str ""))) "Unauthorized" = false)
    (hWmem : stW1 = "QRCODE" ∨ stW1 = "DISCONNECTED" ∨ stW1 = "CLOSED")
    (hWout : wppRegisterSession envW sW tW true = some outW)
    (hJ1 : pyUpperStr (pyOr (pyGetD (wwebjsStatus envJ.status1) "state" .null)
      (pyGetD (wwebjsStatus envJ.status1) "status" (.str ""))) = some stJ1)
    (hJe : hasKey (wwebjsStatus envJ.status1) "error" = false)
    (hJmem : stJ1 = "QRCODE" ∨ stJ1 = "DISCONNECTED" ∨ stJ1 = "UNPAIRED" ∨ stJ1 = "")
    (hJout : wwebjsRegisterSession envJ sJ tJ true = some outJ) :
    ((truthy (pyGetD envW.start "qrcode" .null) = true →
       ApiCall.qrCall ∉ outW.calls ∧
       lookupKey outW.resp "qrcode" = some (pyGetD envW.start "qrcode" .null)) ∧
     (truthy (pyGetD envW.start "qrcode" .null) = false →
       ApiCall.qrCall ∈ outW.calls ∧
       lookupKey outW.resp "qrcode" = some (pyGetD envW.qr "qrcode" .null))) ∧
    (ApiCall.qrCall ∈ outJ.calls ∧
     lookupKey outJ.resp "qrcode" = some (pyOr (pyOr (pyGetD envJ.qr "qrcode_base64" .null)
       (pyGetD envJ.qr "qr" .null)) (pyGetD envJ.qr "qrcode" .null))) := by
  constructor
  · have hne : stW1 ≠ "" := by
      rcases hWmem with rfl | rfl | rfl <;> decide
    have hnc : stW1 ≠ "CONNECTED" := by
      rcases hWmem with rfl | rfl | rfl <;> decide
    rw [wppRegister_stepDirect envW sW tW true stW1 hW1 hWa hne] at hWout
    rw [wppFinish_qr envW.status1 stW1 sW tW envW [.statusCall tW] hnc
      (by rcases hWmem with rfl | rfl | rfl
          · exact Or.inl rfl
          · exact Or.inr (Or.inl rfl)
          · exact Or.inr (Or.inr (Or.inl rfl)))] at hWout
    by_cases hq : truthy (pyGetD envW.start "qrcode" .null) = true
    · rw [if_pos hq] at hWout
      obtain rfl : _ = outW := Option.some_injective _ hWout
      exact ⟨fun _ => ⟨by simp, by simp [lookupKey]⟩,
        fun h => absurd hq (by simp [h])⟩
    · rw [if_neg hq] at hWout
      obtain rfl : _ = outW := Option.some_injective _ hWout
      exact ⟨fun h => absurd h hq, fun _ => ⟨by simp, by simp [lookupKey]⟩⟩
  · have herr : pyGetD (wwebjsStatus envJ.status1) "error" (.str "") = .str "" :=
      pyGetD_of_hasKey_false hJe _
    have hnc : stJ1 ≠ "CONNECTED" := by
      rcases hJmem with rfl | rfl | rfl | rfl <;> decide
    rw [wwebjsRegister_stepDirect envJ sJ tJ true stJ1 hJ1 hJe
      (by simp [herr, pyStr, strContains, charsContain])] at hJout
    rw [wwebjsFinish_qr (wwebjsStatus envJ.status1) stJ1 sJ tJ envJ
      [.statusCall tJ] hnc hJmem] at hJout
    obtain rfl : _ = outJ := Option.some_injective _ hJout
    exact ⟨by simp, by simp [lookupKey]⟩

/-- Witness for C9 (amended): WPPConnect with an embedded start QR (no
endpoint call), WWebJS always calling the endpoint. -/
theorem c9_qr_source_preference_witness :
    (ApiCall.qrCall ∉ [ApiCall.statusCall (JVal.str "t"), ApiCall.startCall]) ∧
    lookupKey [("status", .str "AWAITING_QR_SCAN"),
      ("message", .str "Session created or started. Awaiting QR Code scan."),
      ("qrcode", JVal.str "EMB"), ("session", .str "s"), ("token", .str "t")] "qrcode"
        = some (.str "EMB") ∧
    (ApiCall.qrCall ∈ [ApiCall.statusCall (JVal.str "t"), ApiCall.startCall,
      ApiCall.qrCall]) := by
  have h := c9_qr_source_preference
    ⟨[("status", .str "QRCODE")], [], [], [("qrcode", .str "EMB")], [], []⟩
    ⟨[("message", .str "session_not_connected")], [], [], [("qrcode", .str "EMB")],
     [("ok", .bool true), ("qrcode_base64", .str "QR2"), ("qrcode", .str "QR2")], []⟩
    "s" "s" (.str "t") (.str "t") "QRCODE" "DISCONNECTED"
    ⟨[("status", .str "AWAITING_QR_SCAN"),
      ("message", .str "Session created or started. Awaiting QR Code scan."),
      ("qrcode", .str "EMB"), ("session", .str "s"), ("token", .str "t")], .str "t",
      [.statusCall (.str "t"), .startCall]⟩
    ⟨[("status", .str "AWAITING_QR_SCAN"),
      ("message", .str "Session created or started. Awaiting QR Code scan."),
      ("qrcode", .str "QR2"), ("session", .str "s"), ("token", .str "t")], .str "t",
      [.statusCall (.str "t"), .startCall, .qrCall]⟩
    (by rfl) (by rfl) (Or.inl rfl) (by rfl)
    (by rfl) (by rfl) (Or.inr (Or.inl rfl)) (by rfl)
  exact ⟨(h.1.1 (by rfl)).1, (h.1.1 (by rfl)).2, h.2.1⟩

/-! ## Generic REST wrapper

Both flavors of `send_rest_request` catch everything they can raise:
`requests.Timeout` and `requests.RequestException` (which covers the
`HTTPError` of `raise_for_status`) by the outer handlers, and any
exception of the body-decoding block — `response.json()` itself and,
on the WWebJS flavor, the `success`→`ok` fold — by an inner
`except Exception` that degrades to `{"ok": True, "raw":
response.content}`.  The models are therefore total functions. -/

/-- The transport-level outcome of one `requests.request` call as
`send_rest_request` observes it: a raised `requests.Timeout`; a raised
`requests.RequestException` (covering network errors and the
`HTTPError` that `raise_for_status` raises on a non-2xx status) with
its rendered message; or a 2xx response carrying its body and the
result of attempting `response.json()` on that body (`none` when the
body is not decodable JSON). -/
inductive Transport where
  | timeout
  | reqError (msg : String)
  | ok (content : String) (decoded : Option JVal)

/-- Is a value a Python dict? -/
def isObj : JVal → Bool
  | .obj _ => true
  | _ => false

/-- `wppconnect_api.py:45-94`, `WPPConnectAPI.send_rest_request`
(WPPConnect flavor): classify the transport outcome; `timeoutRepr` is
the rendering of `self.timeout` in the f-string.  The inner
`try: return response.json() except Exception:` only ever catches a
decode failure (the `return` itself cannot raise), so a non-empty
decodable body is returned verbatim — whatever JSON value it is. -/
def wppSendRest (timeoutRepr : String) (t : Transport) : JVal :=
  match t with
  | .timeout => .obj [("ok", .bool false),
      ("error", .str ("Timeout after " ++ timeoutRepr ++ " seconds"))]
  | .reqError m => .obj [("ok", .bool false), ("error", .str m)]
  | .ok content decoded =>
    if content ≠ "" then
      match decoded with
      | some v => v
      | none => .obj [("ok", .bool true), ("raw", .str content)]
    else
      .obj [("ok", .bool true), ("no_content", .bool true)]

/-- `wwebjs_wppconnect_api.py:98-105`: the rest of the inner `try`
after `response.json()` succeeded — `if "success" in result:
result["ok"] = result["success"]; return result` — still under the
inner `except Exception`.  Python `in` is key membership on a dict,
element membership on a list and substring on a string, and raises
`TypeError` on other types; the subscripts raise `TypeError` on a list
or string body.  All of those raises are caught by the inner handler,
which returns `{"ok": True, "raw": response.content}`. -/
def wwebjsFoldSuccess (content : String) : JVal → JVal
  | .obj fs =>
    if hasKey fs "success" then .obj (setKey fs "ok" (pyGetD fs "success" .null))
    else .obj fs
  | .arr xs =>
    if xs.any (fun x => x.eqStr "success") then
      .obj [("ok", .bool true), ("raw", .str content)]
    else .arr xs
  | .str s =>
    if strContains s "success" then
      .obj [("ok", .bool true), ("raw", .str content)]
    else .str s
  | _ => .obj [("ok", .bool true), ("raw", .str content)]

/-- `wwebjs_wppconnect_api.py:59-114`, `WPPConnectAPI.send_rest_request`
(WWebJS flavor): as the WPPConnect flavor, but with the decoded body
passed through the `success`→`ok` fold (and its caught-`TypeError`
degrade) before being returned. -/
def wwebjsSendRest (timeoutRepr : String) (t : Transport) : JVal :=
  match t with
  | .timeout => .obj [("ok", .bool false),
      ("error", .str ("Timeout after " ++ timeoutRepr ++ " seconds"))]
  | .reqError m => .obj [("ok", .bool false), ("error", .str m)]
  | .ok content decoded =>
    if content ≠ "" then
      match decoded with
      | some v => wwebjsFoldSuccess content v
      | none => .obj [("ok", .bool true), ("raw", .str content)]
    else
      .obj [("ok", .bool true), ("no_content", .bool true)]

/-- A non-empty decodable 2xx body reaches the WPPConnect flavor's
`return response.json()`. -/
theorem wppSendRest_decoded (tr c : String) (v : JVal) (hne : c ≠ "") :
    wppSendRest tr (.ok c (some v)) = v := by
  simp only [wppSendRest]
  rw [if_pos hne]

/-- A non-empty decodable 2xx body reaches the WWebJS flavor's
`success`→`ok` fold. -/
theorem wwebjsSendRest_decoded (tr c : String) (v : JVal) (hne : c ≠ "") :
    wwebjsSendRest tr (.ok c (some v)) = wwebjsFoldSuccess c v := by
  simp only [wwebjsSendRest]
  rw [if_pos hne]

/-- The fold on a dict body: `success`, when present, is copied into
`ok`. -/
theorem wwebjsFoldSuccess_obj (c : String) (fs : JObj) :
    wwebjsFoldSuccess c (.obj fs)
      = .obj (if hasKey fs "success"
          then setKey fs "ok" (pyGetD fs "success" .null) else fs) := by
  by_cases h : hasKey fs "success" = true
  · rw [if_pos h]
    simp only [wwebjsFoldSuccess]
    rw [if_pos h]
  · rw [if_neg h]
    simp only [wwebjsFoldSuccess]
    rw [if_neg h]

/-- C7 counterexample: a 2xx response whose body decodes to the JSON
array `[1]` is returned as that array — not a dict — by both flavors:
WPPConnect returns `response.json()` verbatim, and on WWebJS the
membership test finds no `"success"` element, so no fold (and no
caught `TypeError`) occurs and the list itself is returned. -/
theorem c7_counterexample :
    wppSendRest "10.0" (.ok "[1]" (some (.arr [.num 1]))) = .arr [.num 1] ∧
    wwebjsSendRest "10.0" (.ok "[1]" (some (.arr [.num 1]))) = .arr [.num 1] ∧
    isObj (.arr [.num 1]) = false :=
  ⟨rfl, rfl, rfl⟩

/-- C7 as amended: `send_rest_request` never raises and classifies
every call: a timeout yields `{ok: false, error: "Timeout after t
seconds"}`; any other transport failure yields `{ok: false, error}`; a
non-empty non-JSON 2xx body yields `{ok: true, raw: body}`; an empty
2xx body yields `{ok: true, no_content: true}`; a non-empty decodable
2xx body is returned as that body — on the WPPConnect flavor verbatim
(a dict exactly when the body is a JSON object), and on the WWebJS
flavor with any `success` value of an object body folded into `ok`,
while a list or string body whose `success` membership test or
subscripting raises is degraded by the caught `TypeError` to
`{ok: true, raw: body}` and is otherwise returned as-is. -/
theorem c7_send_rest_classification (timeoutRepr : String) (t : Transport) :
    (t = .timeout →
      wppSendRest timeoutRepr t = .obj [("ok", .bool false),
        ("error", .str ("Timeout after " ++ timeoutRepr ++ " seconds"))] ∧
      wwebjsSendRest timeoutRepr t = .obj [("ok", .bool false),
        ("error", .str ("Timeout after " ++ timeoutRepr ++ " seconds"))]) ∧
    (∀ m, t = .reqError m →
      wppSendRest timeoutRepr t = .obj [("ok", .bool false), ("error", .str m)] ∧
      wwebjsSendRest timeoutRepr t = .obj [("ok", .bool false), ("error", .str m)]) ∧
    (∀ content, t = .ok content none → content ≠ "" →
      wppSendRest timeoutRepr t = .obj [("ok", .bool true), ("raw", .str content)] ∧
      wwebjsSendRest timeoutRepr t = .obj [("ok", .bool true), ("raw", .str content)]) ∧
    (∀ d, t = .ok "" d →
      wppSendRest timeoutRepr t = .obj [("ok", .bool true), ("no_content", .bool true)] ∧
      wwebjsSendRest timeoutRepr t
        = .obj [("ok", .bool true), ("no_content", .bool true)]) ∧
    (∀ content v, t = .ok content (some v) → content ≠ "" →
      wppSendRest timeoutRepr t = v) ∧
    (∀ content fs, t = .ok content (some (.obj fs)) → content ≠ "" →
      wwebjsSendRest timeoutRepr t = .obj (if hasKey fs "success"
        then setKey fs "ok" (pyGetD fs "success" .null) else fs) ∧
      isObj (wppSendRest timeoutRepr t) = true ∧
      isObj (wwebjsSendRest timeoutRepr t) = true) ∧
    (∀ content xs, t = .ok content (some (.arr xs)) → content ≠ "" →
      ((xs.any (fun x => x.eqStr "success")) = true →
        wwebjsSendRest timeoutRepr t
          = .obj [("ok", .bool true), ("raw", .str content)]) ∧
      ((xs.any (fun x => x.eqStr "success")) = false →
        wwebjsSendRest timeoutRepr t = .arr xs)) ∧
    (∀ content s, t = .ok content (some (.str s)) → content ≠ "" →
      (strContains s "success" = true →
        wwebjsSendRest timeoutRepr t
          = .obj [("ok", .bool true), ("raw", .str content)]) ∧
      (strContains s "success" = false →
        wwebjsSendRest timeoutRepr t = .str s)) := by
  cases t with
  | timeout =>
    refine ⟨fun _ => ⟨rfl, rfl⟩, ?_, ?_, ?_, ?_, ?_, ?_, ?_⟩
    · intro m hm; exact Transport.noConfusion hm
    · intro c hc; exact Transport.noConfusion hc
    · intro d hd; exact Transport.noConfusion hd
    · intro c v hc; exact Transport.noConfusion hc
    · intro c fs hc; exact Transport.noConfusion hc
    · intro c xs hc; exact Transport.noConfusion hc
    · intro c s hc; exact Transport.noConfusion hc
  | reqError m0 =>
    refine ⟨fun h => Transport.noConfusion h, ?_, ?_, ?_, ?_, ?_, ?_, ?_⟩
    · intro m hm
      injection hm with h
      subst h
      exact ⟨rfl, rfl⟩
    · intro c hc; exact Transport.noConfusion hc
    · intro d hd; exact Transport.noConfusion hd
    · intro c v hc; exact Transport.noConfusion hc
    · intro c fs hc; exact Transport.noConfusion hc
    · intro c xs hc; exact Transport.noConfusion hc
    · intro c s hc; exact Transport.noConfusion hc
  | ok content decoded =>
    refine ⟨fun h => Transport.noConfusion h, fun m hm => Transport.noConfusion hm,
      ?_, ?_, ?_, ?_, ?_, ?_⟩
    · intro c hc hne
      injection hc with h1 h2
      subst h1
      subst h2
      constructor
      · simp only [wppSendRest]
        rw [if_pos hne]
      · simp only [wwebjsSendRest]
        rw [if_pos hne]
    · intro d hd
      injection hd with h1 h2
      subst h1
      subst h2
      exact ⟨rfl, rfl⟩
    · intro c v hc hne
      injection hc with h1 h2
      subst h1
      subst h2
      exact wppSendRest_decoded timeoutRepr content v hne
    · intro c fs hc hne
      injection hc with h1 h2
      subst h1
      subst h2
      have hw := wppSendRest_decoded timeoutRepr content (.obj fs) hne
      have hj := wwebjsSendRest_decoded timeoutRepr content (.obj fs) hne
      rw [wwebjsFoldSuccess_obj] at hj
      refine ⟨hj, by rw [hw]; rfl, by rw [hj]; rfl⟩
    · intro c xs hc hne
      injection hc with h1 h2
      subst h1
      subst h2
      have hj := wwebjsSendRest_decoded timeoutRepr content (.arr xs) hne
      constructor
      · intro hs
        rw [hj]
        simp only [wwebjsFoldSuccess]
        rw [if_pos hs]
      · intro hs
        rw [hj]
        simp only [wwebjsFoldSuccess]
        rw [if_neg (by simp [hs])]
    · intro c s hc hne
      injection hc with h1 h2
      subst h1
      subst h2
      have hj := wwebjsSendRest_decoded timeoutRepr content (.str s) hne
      constructor
      · intro hs
        rw [hj]
        simp only [wwebjsFoldSuccess]
        rw [if_pos hs]
      · intro hs
        rw [hj]
        simp only [wwebjsFoldSuccess]
        rw [if_neg (by simp [hs])]

/-- Witness for C7 (amended) at a timeout, at a 2xx object body
carrying a `success` flag, and at a 2xx list body whose fold raises a
caught `TypeError` and degrades to `{ok: true, raw}`. -/
theorem c7_send_rest_classification_witness :
    wppSendRest "10.0" .timeout = .obj [("ok", .bool false),
      ("error", .str ("Timeout after " ++ "10.0" ++ " seconds"))] ∧
    wwebjsSendRest "10.0" (.ok "\x7b\x22success\x22: true\x7d"
        (some (.obj [("success", .bool true)])))
      = .obj (if hasKey [("success", JVal.bool true)] "success"
          then setKey [("success", JVal.bool true)] "ok"
            (pyGetD [("success", JVal.bool true)] "success" .null)
          else [("success", JVal.bool true)]) ∧
    wwebjsSendRest "10.0" (.ok "[\x22success\x22]" (some (.arr [.str "success"])))
      = .obj [("ok", .bool true), ("raw", .str "[\x22success\x22]")] := by
  have hA := c7_send_rest_classification "10.0" .timeout
  have hB := c7_send_rest_classification "10.0"
    (.ok "\x7b\x22success\x22: true\x7d" (some (.obj [("success", .bool true)])))
  have hC := c7_send_rest_classification "10.0"
    (.ok "[\x22success\x22]" (some (.arr [.str "success"])))
  refine ⟨(hA.1 rfl).1, ?_, ?_⟩
  · exact (hB.2.2.2.2.2.1 _ _ rfl (by decide)).1
  · exact (hC.2.2.2.2.2.2.1 _ _ rfl (by decide)).1 (by decide)
